import Mathlib

/-!
Shallow embedding of the tidal-rpc track-change pipeline (`src/WinMain.cpp`).

The repository is a Windows tray application that mirrors the TIDAL desktop
player's "now playing" state to Discord Rich Presence.  The core logic is the
coroutine `parseTrack(bool force)` together with the artwork uploader
`UploadCoverArtAsync`.  We embed them as pure functions over:

* an explicit application state (`g_isParsing` flag and the
  `g_lastTrackProcessed` cache),
* an environment record capturing what the OS/media subsystem and the child
  upload process would return during one run (session presence, app id,
  metadata fetch outcome, thumbnail stream stages, upload result),
* an event trace recording the externally observable calls the run makes
  (presence updates, presence clears, thumbnail open, upload attempts, log
  lines).

The upload publisher is embedded separately with an explicit file-system
abstraction (a list of existing paths) so that scratch-file cleanup is a real
property of the model rather than a stipulation.
-/

/-- Track metadata, mirroring `struct trackInfo` (WinMain.cpp:56-61). -/
structure trackInfo where
  title : String
  artist : String
  album : String
  coverArtUrl : String
deriving DecidableEq, Repr

/-- The value-initialised `trackInfo{}` used by `g_lastTrackProcessed = {}`. -/
def emptyTrack : trackInfo :=
  { title := "", artist := "", album := "", coverArtUrl := "" }

/-- The mutable globals touched by the pipeline: `g_isParsing`
(WinMain.cpp:77) and `g_lastTrackProcessed` (WinMain.cpp:76). -/
structure AppState where
  isParsing : Bool
  lastTrackProcessed : trackInfo
deriving DecidableEq, Repr

/-- One run's view of the thumbnail byte-extraction chain
(WinMain.cpp:307-328): whether `OpenReadAsync` yields a stream, the sizes
observed at each staged zero-check, and the final `stableData` bytes. -/
structure ThumbStream where
  streamPresent : Bool
  streamSize : Nat
  memSize : Nat
  bytesLoaded : Nat
  bufferLen : Nat
  data : List Nat
deriving DecidableEq, Repr

/-- The media properties returned by `TryGetMediaPropertiesAsync`
(WinMain.cpp:292-298, 307). -/
structure MediaProps where
  title : String
  artist : String
  album : String
  thumbnail : Option ThumbStream
deriving DecidableEq, Repr

/-- Outcome of the asynchronous metadata fetch: either the properties, or a
`winrt::hresult_error` carrying a message (caught at WinMain.cpp:370-375). -/
inductive FetchResult where
  | ok (props : MediaProps)
  | oserror (msg : String)
deriving DecidableEq, Repr

/-- The environment of one `parseTrack` run: whether `g_currentSession` is
non-null, its `SourceAppUserModelId`, the metadata fetch outcome, and the
string `UploadCoverArtAsync` would return if invoked. -/
structure SessionEnv where
  sessionPresent : Bool
  appId : String
  fetch : FetchResult
  uploadResult : String
deriving DecidableEq, Repr

/-- Externally observable actions of one pipeline run. -/
inductive Event where
  | logLine (msg : String)
  | clearPresenceCall
  | updatePresenceCall (track : trackInfo)
  | thumbnailOpen
  | uploadAttempt (data : List Nat)
deriving DecidableEq, Repr

/-- Is this event a call into the presence service (update or clear)? -/
def Event.isPresenceCall : Event → Bool
  | .clearPresenceCall => true
  | .updatePresenceCall _ => true
  | _ => false

/-- Is this event a presence update (as opposed to a clear)? -/
def Event.isUpdatePresence : Event → Bool
  | .updatePresenceCall _ => true
  | _ => false

/-- Is this event an invocation of the artwork uploader? -/
def Event.isUploadAttempt : Event → Bool
  | .uploadAttempt _ => true
  | _ => false

/-- Is this event the opening of the thumbnail stream? -/
def Event.isThumbOpen : Event → Bool
  | .thumbnailOpen => true
  | _ => false

/-- Does `needle` occur as a contiguous sublist of the list?  Mirrors
`std::wstring_view::find(needle) != npos`. -/
def listContainsSub (needle : List Char) : List Char → Bool
  | [] => needle.isEmpty
  | c :: rest => List.isPrefixOf needle (c :: rest) || listContainsSub needle rest

/-- `haystack.find(needle) != npos` on wide strings (WinMain.cpp:290, 335). -/
def containsSubstr (haystack needle : String) : Bool :=
  listContainsSub needle.toList haystack.toList

/-- The thumbnail block of `parseTrack` (WinMain.cpp:307-356): walk the staged
zero-checks, invoke the uploader when non-empty bytes survive all of them, and
accept the result only when it is non-empty and free of `"Error:"` and
`"Exception:"` (WinMain.cpp:333-341).  Returns the track (possibly with
`coverArtUrl` filled in) and the events emitted. -/
def thumbnailStep (env : SessionEnv) (props : MediaProps) (track : trackInfo) :
    trackInfo × List Event :=
  match props.thumbnail with
  | none =>
      (track, [.logLine ("No cover art found for '" ++ track.title ++ "'.")])
  | some t =>
      if t.streamPresent && decide (0 < t.streamSize) then
        if decide (0 < t.memSize) then
          if decide (0 < t.bytesLoaded) then
            if decide (0 < t.bufferLen) then
              if decide (0 < t.data.length) then
                let evs : List Event :=
                  [.thumbnailOpen,
                   .logLine ("Found cover art for '" ++ track.title ++ "'. Uploading..."),
                   .uploadAttempt t.data]
                let uploadedUrl := env.uploadResult
                if uploadedUrl != "" then
                  if !(containsSubstr uploadedUrl "Error:")
                      && !(containsSubstr uploadedUrl "Exception:") then
                    ({ track with coverArtUrl := uploadedUrl },
                     evs ++ [.logLine ("Upload successful: " ++ uploadedUrl)])
                  else
                    (track,
                     evs ++ [.logLine ("Failed to upload cover art: " ++ uploadedUrl)])
                else
                  (track, evs)
              else
                (track,
                 [.thumbnailOpen,
                  .logLine "BufferToVector created a 0-size vector. Aborting upload."])
            else
              (track,
               [.thumbnailOpen,
                .logLine "ReadBuffer created a 0-length buffer. Aborting upload."])
          else
            (track,
             [.thumbnailOpen,
              .logLine ("Cover art stream for '" ++ track.title ++ "' was empty (0 bytes loaded).")])
        else
          (track,
           [.thumbnailOpen,
            .logLine ("Cover art stream for '" ++ track.title ++ "' was empty (memoryStream size 0).")])
      else
        (track, [.thumbnailOpen])

/-- The body of `parseTrack` after the guard is in place (WinMain.cpp:285-383):
session/app-id dispatch, metadata fetch (with the `hresult_error` catch),
duplicate-track cache check, thumbnail/upload, presence update and cache
write-back.  Never touches `isParsing`; the guard wrapper does that. -/
def parseTrackBody (force : Bool) (env : SessionEnv) (s : AppState) :
    AppState × List Event :=
  if env.sessionPresent then
    if containsSubstr env.appId "TIDAL" then
      match env.fetch with
      | .oserror msg =>
          ({ s with lastTrackProcessed := emptyTrack },
           [.logLine ("Failed to parse track info: " ++ msg)])
      | .ok props =>
          let track : trackInfo :=
            { title := props.title, artist := props.artist,
              album := props.album, coverArtUrl := "" }
          if !force && track.title == s.lastTrackProcessed.title
              && track.artist == s.lastTrackProcessed.artist then
            (s, [.logLine ("Duplicate event for '" ++ track.title ++ "' ignored.")])
          else
            let r := thumbnailStep env props track
            ({ s with lastTrackProcessed := r.1 },
             r.2 ++ [.updatePresenceCall r.1])
    else
      ({ s with lastTrackProcessed := emptyTrack },
       [.logLine "No active TIDAL session found. Clearing presence.",
        .clearPresenceCall])
  else
    ({ s with lastTrackProcessed := emptyTrack },
     [.logLine "No active media session found. Clearing presence.",
      .clearPresenceCall])

/-- `IAsyncAction parseTrack(bool force)` (WinMain.cpp:276-384).  The entry
guard rejects non-forced runs while `g_isParsing` is set; otherwise
`ParsingGuard guard(g_isParsing)` (WinMain.cpp:79-84, 283) sets the flag for
the body and clears it on every exit path (the body is a total function, so
normal completion, early returns and the caught exception all pass through the
final clear). -/
def parseTrack (force : Bool) (env : SessionEnv) (s : AppState) :
    AppState × List Event :=
  if !force && s.isParsing then
    (s, [.logLine "Already processing a track, ignoring concurrent event."])
  else
    let r := parseTrackBody force env { s with isParsing := true }
    ({ r.1 with isParsing := false }, r.2)

/-- Environment of one `UploadCoverArtAsync` call (WinMain.cpp:173-262):
success/failure of `GetTempPathW`, the temp directory and the timestamp used
in the scratch-file name, success of the `ofstream` open, `CreatePipe`,
`SetHandleInformation` and `CreateProcessW`, the `GetLastError` code on spawn
failure, and the child's captured stdout on success. -/
structure UploadEnv where
  tempPathOk : Bool
  tempPath : String
  timestamp : Nat
  fileOpenOk : Bool
  pipeOk : Bool
  handleInfoOk : Bool
  spawnOk : Bool
  spawnErr : Nat
  childOutput : String
deriving DecidableEq, Repr

/-- The scratch-file path built at WinMain.cpp:179. -/
def tempFilePath (env : UploadEnv) : String :=
  env.tempPath ++ "\\TIDALRPC_" ++ toString env.timestamp ++ ".png"

/-- One `pop_back` step of the trailing newline/CR strip (WinMain.cpp:254-256). -/
def popTrailingNewline (s : String) : String :=
  if s != "" && (s.back == '\n' || s.back == '\r') then s.dropRight 1 else s

/-- The double strip tolerating CRLF (WinMain.cpp:254-259). -/
def stripTrailingCRLF (s : String) : String :=
  popTrailingNewline (popTrailingNewline s)

/-- `UploadCoverArtAsync` (WinMain.cpp:173-262) over an explicit file system
(the list of existing paths).  The scratch file is created by the `ofstream`
block (WinMain.cpp:181-187) and deleted by `DeleteFileW` on the pipe-failure
path (197), the handle-setup-failure path (203), and unconditionally before
the final return (248); spawn failure falls through to that same delete with
an error string as the captured output (244).  Returns the result string and
the file system after the call. -/
def UploadCoverArtAsync (env : UploadEnv) (binaryData : List Nat)
    (fs : List String) : String × List String :=
  if !env.tempPathOk then
    ("Error: Could not get temp path", fs)
  else
    let path := tempFilePath env
    if !env.fileOpenOk then
      ("Error: Could not open temp file for writing", fs)
    else
      let fs1 := path :: fs
      if !env.pipeOk then
        ("Error: Could not create stdout pipe", fs1.filter (fun q => q != path))
      else if !env.handleInfoOk then
        ("Error: Could not set handle information for pipe",
         fs1.filter (fun q => q != path))
      else
        let output :=
          if env.spawnOk then env.childOutput
          else "Error: CreateProcess failed with code " ++ toString env.spawnErr
        (stripTrailingCRLF output, fs1.filter (fun q => q != path))

/- Sample values used by witnesses and counterexamples. -/

/-- A concrete track. -/
def wTrackA : trackInfo :=
  { title := "Song A", artist := "Artist A", album := "Album A", coverArtUrl := "" }

/-- A thumbnail stream surviving every staged zero-check. -/
def wThumb : ThumbStream :=
  { streamPresent := true, streamSize := 4, memSize := 4, bytesLoaded := 4,
    bufferLen := 4, data := [137, 80, 78, 71] }

/-- Media properties without a thumbnail. -/
def wPropsNoThumb : MediaProps :=
  { title := "Song A", artist := "Artist A", album := "Album A", thumbnail := none }

/-- Media properties with a usable thumbnail. -/
def wPropsThumb : MediaProps :=
  { title := "Song A", artist := "Artist A", album := "Album A",
    thumbnail := some wThumb }

/-- TIDAL session, fetch succeeds, upload would succeed. -/
def wEnvOk : SessionEnv :=
  { sessionPresent := true, appId := "TIDAL.exe!App", fetch := .ok wPropsThumb,
    uploadResult := "https://0x0.st/abc.png" }

/-- TIDAL session, fetch succeeds, upload returns an error-prefixed string. -/
def wEnvUploadErr : SessionEnv :=
  { sessionPresent := true, appId := "TIDAL.exe!App", fetch := .ok wPropsThumb,
    uploadResult := "Error: spawn failed" }

/-- TIDAL session, fetch succeeds, upload returns the empty string. -/
def wEnvUploadEmpty : SessionEnv :=
  { sessionPresent := true, appId := "TIDAL.exe!App", fetch := .ok wPropsThumb,
    uploadResult := "" }

/-- No active media session. -/
def wEnvNoSession : SessionEnv :=
  { sessionPresent := false, appId := "", fetch := .ok wPropsNoThumb,
    uploadResult := "" }

/-- A non-TIDAL session. -/
def wEnvSpotify : SessionEnv :=
  { sessionPresent := true, appId := "Spotify.exe!App", fetch := .ok wPropsNoThumb,
    uploadResult := "" }

/-- TIDAL session whose metadata fetch raises an OS error. -/
def wEnvFetchErr : SessionEnv :=
  { sessionPresent := true, appId := "TIDAL.exe!App",
    fetch := .oserror "The device is not ready.", uploadResult := "" }

/-- Idle state with an empty cache. -/
def wStateIdle : AppState :=
  { isParsing := false, lastTrackProcessed := emptyTrack }

/-- State with the Processing Flag set. -/
def wStateBusy : AppState :=
  { isParsing := true, lastTrackProcessed := emptyTrack }

/-- Idle state whose cache already holds `wTrackA`. -/
def wStateCached : AppState :=
  { isParsing := false, lastTrackProcessed := wTrackA }

/-- Upload environment where every OS call succeeds. -/
def wUploadOk : UploadEnv :=
  { tempPathOk := true, tempPath := "C:\\Temp", timestamp := 42,
    fileOpenOk := true, pipeOk := true, handleInfoOk := true, spawnOk := true,
    spawnErr := 0, childOutput := "https://0x0.st/abc.png\n" }

/-! ### Helper lemmas -/

/-- A prefix of a non-empty pattern can only sit inside a non-empty list. -/
theorem isPrefixOf_ne_nil {p l : List Char} (h : List.isPrefixOf p l = true)
    (hp : p ≠ []) : l ≠ [] := by
  cases p with
  | nil => exact absurd rfl hp
  | cons a t =>
      cases l with
      | nil => simp [List.isPrefixOf] at h
      | cons b u => simp

/-- A prefix occurrence is in particular a substring occurrence. -/
theorem listContainsSub_of_isPrefixOf {p l : List Char}
    (h : List.isPrefixOf p l = true) : listContainsSub p l = true := by
  cases l with
  | nil =>
      cases p with
      | nil => simp [listContainsSub]
      | cons a t => simp [List.isPrefixOf] at h
  | cons c rest => simp [listContainsSub, h]

/-- A string with an `"Error:"` prefix is non-empty and contains `"Error:"`. -/
theorem error_prefixed_facts {s : String}
    (h : List.isPrefixOf "Error:".toList s.toList = true) :
    containsSubstr s "Error:" = true ∧ (s == "") = false := by
  refine ⟨listContainsSub_of_isPrefixOf h, ?_⟩
  have hnil : s.toList ≠ [] := by
    refine isPrefixOf_ne_nil h ?_
    intro hcontra
    simp [String.toList] at hcontra
  have hs : s ≠ "" := by
    intro hcontra
    exact hnil (by simp [hcontra])
  simpa using hs

/-- `thumbnailStep` never changes the title, artist or album of the track;
it can only fill in `coverArtUrl`. -/
theorem thumbnailStep_meta (env : SessionEnv) (props : MediaProps)
    (t : trackInfo) :
    (thumbnailStep env props t).1.title = t.title ∧
    (thumbnailStep env props t).1.artist = t.artist ∧
    (thumbnailStep env props t).1.album = t.album := by
  unfold thumbnailStep
  cases props.thumbnail with
  | none => simp
  | some th =>
      simp only
      repeat' split
      all_goals simp

/-! ### Claim theorems -/

/-- C1: for every non-forced pipeline run whose freshly fetched
`(title, artist)` pair equals the pair cached in `g_lastTrackProcessed`, the
run exits before the thumbnail step: the thumbnail stream is never opened, no
upload is attempted, no presence call (update or clear) occurs, and the cache
is unchanged. -/
theorem dedup_run_no_effects (env : SessionEnv) (s : AppState)
    (props : MediaProps)
    (hs : env.sessionPresent = true)
    (ha : containsSubstr env.appId "TIDAL" = true)
    (hf : env.fetch = .ok props)
    (ht : props.title = s.lastTrackProcessed.title)
    (har : props.artist = s.lastTrackProcessed.artist) :
    (parseTrack false env s).1.lastTrackProcessed = s.lastTrackProcessed ∧
    (parseTrack false env s).2.all
      (fun e => !e.isPresenceCall && !e.isUploadAttempt && !e.isThumbOpen)
      = true := by
  by_cases hp : s.isParsing
  · simp [parseTrack, hp, Event.isPresenceCall, Event.isUploadAttempt,
      Event.isThumbOpen]
  · simp [parseTrack, parseTrackBody, hp, hs, ha, hf, ht, har,
      Event.isPresenceCall, Event.isUploadAttempt, Event.isThumbOpen]

/-- Witness for C1 at a concrete cached track. -/
theorem dedup_run_no_effects_witness :
    (parseTrack false wEnvOk wStateCached).1.lastTrackProcessed
        = wStateCached.lastTrackProcessed ∧
    (parseTrack false wEnvOk wStateCached).2.all
      (fun e => !e.isPresenceCall && !e.isUploadAttempt && !e.isThumbOpen)
      = true :=
  dedup_run_no_effects wEnvOk wStateCached wPropsThumb (by decide) (by decide)
    (by decide) (by decide) (by decide)

/-- C2: a non-forced invocation while `g_isParsing` is already set returns
immediately with only the "ignoring concurrent event" log line: the state
(flag and cache) is returned unchanged and no presence or upload call is
made. -/
theorem busy_guard_noop (env : SessionEnv) (s : AppState)
    (h : s.isParsing = true) :
    parseTrack false env s =
      (s, [.logLine "Already processing a track, ignoring concurrent event."]) := by
  simp [parseTrack, h]

/-- Witness for C2 at a concrete busy state. -/
theorem busy_guard_noop_witness :
    parseTrack false wEnvOk wStateBusy =
      (wStateBusy,
       [.logLine "Already processing a track, ignoring concurrent event."]) :=
  busy_guard_noop wEnvOk wStateBusy (by decide)

/-- C4: every invocation that passes the entry guard runs the pipeline body
with `g_isParsing = true` (the `ParsingGuard` constructor) and returns with
`g_isParsing = false` (the guard destructor), on every exit path — the body is
a total function covering normal completion, the duplicate-track early
return, the no-session exit and the caught OS exception — including forced
invocations. -/
theorem guard_scoped (force : Bool) (env : SessionEnv) (s : AppState)
    (hg : (!force && s.isParsing) = false) :
    (parseTrack force env s).1.isParsing = false ∧
    parseTrack force env s =
      ({ (parseTrackBody force env { s with isParsing := true }).1 with
          isParsing := false },
       (parseTrackBody force env { s with isParsing := true }).2) := by
  have h2 : parseTrack force env s =
      ({ (parseTrackBody force env { s with isParsing := true }).1 with
          isParsing := false },
       (parseTrackBody force env { s with isParsing := true }).2) := by
    simp [parseTrack, hg]
  exact ⟨by rw [h2], h2⟩

/-- Witness for C4: a forced invocation issued while the flag is set still
passes the guard, runs the body at `isParsing = true`, and exits with the
flag cleared. -/
theorem guard_scoped_witness :
    (parseTrack true wEnvOk wStateBusy).1.isParsing = false ∧
    parseTrack true wEnvOk wStateBusy =
      ({ (parseTrackBody true wEnvOk { wStateBusy with isParsing := true }).1 with
          isParsing := false },
       (parseTrackBody true wEnvOk { wStateBusy with isParsing := true }).2) :=
  guard_scoped true wEnvOk wStateBusy (by decide)

/-- C5: if the metadata fetch raises an OS-level error, the run (forced or
not, provided it passed the entry guard) logs the error message, resets the
cache to the empty track, and returns exactly that one log event — so no
presence-update and no presence-clear call is made, and, the embedding being a
total function, the error never propagates out of the run. -/
theorem fetch_error_aborts_run (force : Bool) (env : SessionEnv)
    (s : AppState) (msg : String)
    (hg : (!force && s.isParsing) = false)
    (hs : env.sessionPresent = true)
    (ha : containsSubstr env.appId "TIDAL" = true)
    (hf : env.fetch = .oserror msg) :
    parseTrack force env s =
      ({ isParsing := false, lastTrackProcessed := emptyTrack },
       [.logLine ("Failed to parse track info: " ++ msg)]) := by
  simp [parseTrack, parseTrackBody, hg, hs, ha, hf]

/-- Witness for C5 at a concrete failing fetch. -/
theorem fetch_error_aborts_run_witness :
    parseTrack false wEnvFetchErr wStateCached =
      ({ isParsing := false, lastTrackProcessed := emptyTrack },
       [.logLine "Failed to parse track info: The device is not ready."]) :=
  fetch_error_aborts_run false wEnvFetchErr wStateCached
    "The device is not ready." (by decide) (by decide) (by decide) (by decide)

/-- C8: a run that passes the entry guard and finds either no active session
or a session whose app id does not contain `"TIDAL"` clears presence, resets
the cache to the empty track, and never opens the thumbnail stream, attempts
an upload, or issues a presence update. -/
theorem non_target_session_clears (force : Bool) (env : SessionEnv)
    (s : AppState)
    (hg : (!force && s.isParsing) = false)
    (hcase : env.sessionPresent = false ∨ containsSubstr env.appId "TIDAL" = false) :
    (parseTrack force env s).1.lastTrackProcessed = emptyTrack ∧
    Event.clearPresenceCall ∈ (parseTrack force env s).2 ∧
    (parseTrack force env s).2.all
      (fun e => !e.isUploadAttempt && !e.isThumbOpen && !e.isUpdatePresence)
      = true := by
  rcases hcase with hcase | hcase
  · simp [parseTrack, parseTrackBody, hg, hcase,
      Event.isUploadAttempt, Event.isThumbOpen, Event.isUpdatePresence]
  · by_cases hs : env.sessionPresent
    · simp [parseTrack, parseTrackBody, hg, hs, hcase,
        Event.isUploadAttempt, Event.isThumbOpen, Event.isUpdatePresence]
    · simp [parseTrack, parseTrackBody, hg, hs,
        Event.isUploadAttempt, Event.isThumbOpen, Event.isUpdatePresence]

/-- Witness for C8 at a concrete non-TIDAL session. -/
theorem non_target_session_clears_witness :
    (parseTrack false wEnvSpotify wStateCached).1.lastTrackProcessed = emptyTrack ∧
    Event.clearPresenceCall ∈ (parseTrack false wEnvSpotify wStateCached).2 ∧
    (parseTrack false wEnvSpotify wStateCached).2.all
      (fun e => !e.isUploadAttempt && !e.isThumbOpen && !e.isUpdatePresence)
      = true :=
  non_target_session_clears false wEnvSpotify wStateCached (by decide)
    (Or.inr (by decide))

/-- C3 counterexample: a forced run made while no media session is active
performs no presence-update call at all (it clears presence instead), and the
cache afterwards holds the empty track rather than any freshly fetched one —
so "for every forced run, a presence-update call occurs and the cache is
overwritten with the newly fetched track" is false as stated. -/
theorem forced_run_claim_cex :
    (parseTrack true wEnvNoSession wStateCached).2.all
      (fun e => !e.isUpdatePresence) = true ∧
    (parseTrack true wEnvNoSession wStateCached).1.lastTrackProcessed
      = emptyTrack := by
  constructor
  · decide
  · decide

/-- C3 (amended): for every forced run that finds an active session whose app
id contains `"TIDAL"` and whose metadata fetch succeeds, a presence-update
call occurs regardless of the cache state, and the cache is overwritten with
the newly fetched track (the very track passed to the presence update, whose
title, artist and album are the freshly fetched ones). -/
theorem forced_run_updates_and_caches (env : SessionEnv) (s : AppState)
    (props : MediaProps)
    (hs : env.sessionPresent = true)
    (ha : containsSubstr env.appId "TIDAL" = true)
    (hf : env.fetch = .ok props) :
    Event.updatePresenceCall (parseTrack true env s).1.lastTrackProcessed
        ∈ (parseTrack true env s).2 ∧
    (parseTrack true env s).1.lastTrackProcessed.title = props.title ∧
    (parseTrack true env s).1.lastTrackProcessed.artist = props.artist ∧
    (parseTrack true env s).1.lastTrackProcessed.album = props.album := by
  have hmeta := thumbnailStep_meta env props
    { title := props.title, artist := props.artist,
      album := props.album, coverArtUrl := "" }
  refine ⟨?_, ?_, ?_, ?_⟩ <;>
    simp [parseTrack, parseTrackBody, hs, ha, hf, hmeta.1, hmeta.2.1, hmeta.2.2]

/-- Witness for the amended C3 at a concrete forced run over a cached
identical track (the cache state does not suppress the update). -/
theorem forced_run_updates_and_caches_witness :
    Event.updatePresenceCall
        (parseTrack true wEnvOk wStateCached).1.lastTrackProcessed
        ∈ (parseTrack true wEnvOk wStateCached).2 ∧
    (parseTrack true wEnvOk wStateCached).1.lastTrackProcessed.title
        = wPropsThumb.title ∧
    (parseTrack true wEnvOk wStateCached).1.lastTrackProcessed.artist
        = wPropsThumb.artist ∧
    (parseTrack true wEnvOk wStateCached).1.lastTrackProcessed.album
        = wPropsThumb.album :=
  forced_run_updates_and_caches wEnvOk wStateCached wPropsThumb (by decide)
    (by decide) (by decide)

/-- Characterisation of `thumbnailStep` on the upload path: when the thumbnail
survives every staged zero-check, the uploader is invoked and its result is
accepted exactly when non-empty and free of `"Error:"`/`"Exception:"`. -/
theorem thumbnailStep_upload (env : SessionEnv) (props : MediaProps)
    (t : ThumbStream) (track : trackInfo)
    (hth : props.thumbnail = some t)
    (ht1 : t.streamPresent = true)
    (ht2 : 0 < t.streamSize)
    (ht3 : 0 < t.memSize)
    (ht4 : 0 < t.bytesLoaded)
    (ht5 : 0 < t.bufferLen)
    (ht6 : 0 < t.data.length) :
    thumbnailStep env props track =
      (if env.uploadResult != "" then
        if !(containsSubstr env.uploadResult "Error:")
            && !(containsSubstr env.uploadResult "Exception:") then
          ({ track with coverArtUrl := env.uploadResult },
           [.thumbnailOpen,
            .logLine ("Found cover art for '" ++ track.title ++ "'. Uploading..."),
            .uploadAttempt t.data,
            .logLine ("Upload successful: " ++ env.uploadResult)])
        else
          (track,
           [.thumbnailOpen,
            .logLine ("Found cover art for '" ++ track.title ++ "'. Uploading..."),
            .uploadAttempt t.data,
            .logLine ("Failed to upload cover art: " ++ env.uploadResult)])
      else
        (track,
         [.thumbnailOpen,
          .logLine ("Found cover art for '" ++ track.title ++ "'. Uploading..."),
          .uploadAttempt t.data])) := by
  simp [thumbnailStep, hth, ht1, ht2, ht3, ht4, ht5, ht6]

/-- Full run equation for a guarded, non-deduplicated TIDAL run whose upload
returns an error-prefixed string: the failure is logged, presence is still
updated with an empty `coverArtUrl`, and the cache receives that track. -/
theorem parseTrack_upload_error_run (force : Bool) (env : SessionEnv)
    (s : AppState) (props : MediaProps) (t : ThumbStream)
    (hg : (!force && s.isParsing) = false)
    (hs : env.sessionPresent = true)
    (ha : containsSubstr env.appId "TIDAL" = true)
    (hf : env.fetch = .ok props)
    (hd : (!force && (props.title == s.lastTrackProcessed.title)
            && (props.artist == s.lastTrackProcessed.artist)) = false)
    (hth : props.thumbnail = some t)
    (ht1 : t.streamPresent = true)
    (ht2 : 0 < t.streamSize)
    (ht3 : 0 < t.memSize)
    (ht4 : 0 < t.bytesLoaded)
    (ht5 : 0 < t.bufferLen)
    (ht6 : 0 < t.data.length)
    (herr : List.isPrefixOf "Error:".toList env.uploadResult.toList = true) :
    parseTrack force env s =
      ({ isParsing := false,
         lastTrackProcessed :=
           { title := props.title, artist := props.artist,
             album := props.album, coverArtUrl := "" } },
       [.thumbnailOpen,
        .logLine ("Found cover art for '" ++ props.title ++ "'. Uploading..."),
        .uploadAttempt t.data,
        .logLine ("Failed to upload cover art: " ++ env.uploadResult),
        .updatePresenceCall
          { title := props.title, artist := props.artist,
            album := props.album, coverArtUrl := "" }]) := by
  have hstep := thumbnailStep_upload env props t
    { title := props.title, artist := props.artist,
      album := props.album, coverArtUrl := "" }
    hth ht1 ht2 ht3 ht4 ht5 ht6
  have hfacts := error_prefixed_facts herr
  simp [parseTrack, parseTrackBody, hg, hs, ha, hf, hd, hstep,
    hfacts.1, hfacts.2, bne]

/-- C6 counterexample: with upload result `"Error: spawn failed"`, the run
does NOT reset the Last-Processed Cache — it stores the fetched track — and
the next identical non-forced trigger is deduplicated (no presence call, no
upload) rather than treated as a fresh track. -/
theorem upload_error_cache_cex :
    (parseTrack false wEnvUploadErr wStateIdle).1.lastTrackProcessed
        ≠ emptyTrack ∧
    (parseTrack false wEnvUploadErr
        (parseTrack false wEnvUploadErr wStateIdle).1).2.all
      (fun e => !e.isPresenceCall && !e.isUploadAttempt) = true := by
  constructor
  · decide
  · decide

/-- C6 (amended): if the artwork upload fails during a run (error-prefixed
publisher result), the run does not reset the Last-Processed Cache; it stores
the fetched track with an empty `coverArtUrl`, so the next non-forced trigger
fetching the same `(title, artist)` is deduplicated (no presence call, no
upload) rather than treated as a fresh track.  (Only the metadata-fetch OS
error resets the cache.) -/
theorem upload_error_cache_not_reset (force : Bool) (env : SessionEnv)
    (s : AppState) (props : MediaProps) (t : ThumbStream)
    (hg : (!force && s.isParsing) = false)
    (hs : env.sessionPresent = true)
    (ha : containsSubstr env.appId "TIDAL" = true)
    (hf : env.fetch = .ok props)
    (hd : (!force && (props.title == s.lastTrackProcessed.title)
            && (props.artist == s.lastTrackProcessed.artist)) = false)
    (hth : props.thumbnail = some t)
    (ht1 : t.streamPresent = true)
    (ht2 : 0 < t.streamSize)
    (ht3 : 0 < t.memSize)
    (ht4 : 0 < t.bytesLoaded)
    (ht5 : 0 < t.bufferLen)
    (ht6 : 0 < t.data.length)
    (herr : List.isPrefixOf "Error:".toList env.uploadResult.toList = true) :
    (parseTrack force env s).1.lastTrackProcessed =
      { title := props.title, artist := props.artist,
        album := props.album, coverArtUrl := "" } ∧
    (parseTrack false env (parseTrack force env s).1).2.all
      (fun e => !e.isPresenceCall && !e.isUploadAttempt) = true := by
  have hrun := parseTrack_upload_error_run force env s props t hg hs ha hf hd
    hth ht1 ht2 ht3 ht4 ht5 ht6 herr
  constructor
  · rw [hrun]
  · rw [hrun]
    simp [parseTrack, parseTrackBody, hs, ha, hf,
      Event.isPresenceCall, Event.isUploadAttempt]

/-- Witness for the amended C6 at the concrete "Error: spawn failed" run. -/
theorem upload_error_cache_not_reset_witness :
    (parseTrack false wEnvUploadErr wStateIdle).1.lastTrackProcessed =
      { title := wPropsThumb.title, artist := wPropsThumb.artist,
        album := wPropsThumb.album, coverArtUrl := "" } ∧
    (parseTrack false wEnvUploadErr
        (parseTrack false wEnvUploadErr wStateIdle).1).2.all
      (fun e => !e.isPresenceCall && !e.isUploadAttempt) = true :=
  upload_error_cache_not_reset false wEnvUploadErr wStateIdle wPropsThumb
    wThumb (by decide) (by decide) (by decide) (by decide) (by decide)
    (by decide) (by decide) (by decide) (by decide) (by decide) (by decide)
    (by decide) (by decide)

/-- C7: when the upload returns an error-prefixed result string, the run is
not aborted: the failure is logged, presence is reported with an empty
artwork URL, and the cache is updated with the track (empty `coverArtUrl`). -/
theorem upload_error_reports_without_art (force : Bool) (env : SessionEnv)
    (s : AppState) (props : MediaProps) (t : ThumbStream)
    (hg : (!force && s.isParsing) = false)
    (hs : env.sessionPresent = true)
    (ha : containsSubstr env.appId "TIDAL" = true)
    (hf : env.fetch = .ok props)
    (hd : (!force && (props.title == s.lastTrackProcessed.title)
            && (props.artist == s.lastTrackProcessed.artist)) = false)
    (hth : props.thumbnail = some t)
    (ht1 : t.streamPresent = true)
    (ht2 : 0 < t.streamSize)
    (ht3 : 0 < t.memSize)
    (ht4 : 0 < t.bytesLoaded)
    (ht5 : 0 < t.bufferLen)
    (ht6 : 0 < t.data.length)
    (herr : List.isPrefixOf "Error:".toList env.uploadResult.toList = true) :
    Event.logLine ("Failed to upload cover art: " ++ env.uploadResult)
        ∈ (parseTrack force env s).2 ∧
    Event.updatePresenceCall
        { title := props.title, artist := props.artist,
          album := props.album, coverArtUrl := "" }
        ∈ (parseTrack force env s).2 ∧
    (parseTrack force env s).1.lastTrackProcessed =
      { title := props.title, artist := props.artist,
        album := props.album, coverArtUrl := "" } := by
  have hrun := parseTrack_upload_error_run force env s props t hg hs ha hf hd
    hth ht1 ht2 ht3 ht4 ht5 ht6 herr
  rw [hrun]
  simp

/-- Witness for C7 at the concrete "Error: spawn failed" run. -/
theorem upload_error_reports_without_art_witness :
    Event.logLine ("Failed to upload cover art: " ++ wEnvUploadErr.uploadResult)
        ∈ (parseTrack false wEnvUploadErr wStateIdle).2 ∧
    Event.updatePresenceCall
        { title := wPropsThumb.title, artist := wPropsThumb.artist,
          album := wPropsThumb.album, coverArtUrl := "" }
        ∈ (parseTrack false wEnvUploadErr wStateIdle).2 ∧
    (parseTrack false wEnvUploadErr wStateIdle).1.lastTrackProcessed =
      { title := wPropsThumb.title, artist := wPropsThumb.artist,
        album := wPropsThumb.album, coverArtUrl := "" } :=
  upload_error_reports_without_art false wEnvUploadErr wStateIdle wPropsThumb
    wThumb (by decide) (by decide) (by decide) (by decide) (by decide)
    (by decide) (by decide) (by decide) (by decide) (by decide) (by decide)
    (by decide) (by decide)

/-- C10: after an upload attempt, the run stores the publisher's result as
`coverArtUrl` exactly when it is non-empty and contains neither `"Error:"`
nor `"Exception:"` anywhere as a substring; an empty result is silently
treated as no artwork — the run's full event list then carries no failure (or
success) log line for the upload, and the run proceeds to report presence. -/
theorem upload_result_acceptance (force : Bool) (env : SessionEnv)
    (s : AppState) (props : MediaProps) (t : ThumbStream)
    (hg : (!force && s.isParsing) = false)
    (hs : env.sessionPresent = true)
    (ha : containsSubstr env.appId "TIDAL" = true)
    (hf : env.fetch = .ok props)
    (hd : (!force && (props.title == s.lastTrackProcessed.title)
            && (props.artist == s.lastTrackProcessed.artist)) = false)
    (hth : props.thumbnail = some t)
    (ht1 : t.streamPresent = true)
    (ht2 : 0 < t.streamSize)
    (ht3 : 0 < t.memSize)
    (ht4 : 0 < t.bytesLoaded)
    (ht5 : 0 < t.bufferLen)
    (ht6 : 0 < t.data.length) :
    (parseTrack force env s).1.lastTrackProcessed.coverArtUrl =
      (if (env.uploadResult != "")
          && !(containsSubstr env.uploadResult "Error:")
          && !(containsSubstr env.uploadResult "Exception:")
       then env.uploadResult else "") ∧
    (env.uploadResult = "" →
      (parseTrack force env s).2 =
        [.thumbnailOpen,
         .logLine ("Found cover art for '" ++ props.title ++ "'. Uploading..."),
         .uploadAttempt t.data,
         .updatePresenceCall
           { title := props.title, artist := props.artist,
             album := props.album, coverArtUrl := "" }]) := by
  have hstep := thumbnailStep_upload env props t
    { title := props.title, artist := props.artist,
      album := props.album, coverArtUrl := "" }
    hth ht1 ht2 ht3 ht4 ht5 ht6
  have hrun : parseTrack force env s =
      ({ isParsing := false,
         lastTrackProcessed := (thumbnailStep env props
           { title := props.title, artist := props.artist,
             album := props.album, coverArtUrl := "" }).1 },
       (thumbnailStep env props
           { title := props.title, artist := props.artist,
             album := props.album, coverArtUrl := "" }).2
         ++ [.updatePresenceCall (thumbnailStep env props
           { title := props.title, artist := props.artist,
             album := props.album, coverArtUrl := "" }).1]) := by
    simp [parseTrack, parseTrackBody, hg, hs, ha, hf, hd]
  rw [hrun, hstep]
  by_cases hne : env.uploadResult = ""
  · simp [hne]
  · have hne' : (env.uploadResult == "") = false := beq_eq_false_iff_ne.mpr hne
    by_cases hclean : (!(containsSubstr env.uploadResult "Error:")
        && !(containsSubstr env.uploadResult "Exception:")) = true
    · simp [bne, hne', hclean, hne]
    · have hcf := Bool.eq_false_iff.mpr hclean
      simp [bne, hne', hcf, hne]

/-- Witness for C10 at an empty publisher result: nothing stored, nothing
logged about the upload, presence still reported. -/
theorem upload_result_acceptance_witness :
    (parseTrack false wEnvUploadEmpty wStateIdle).1.lastTrackProcessed.coverArtUrl =
      (if (wEnvUploadEmpty.uploadResult != "")
          && !(containsSubstr wEnvUploadEmpty.uploadResult "Error:")
          && !(containsSubstr wEnvUploadEmpty.uploadResult "Exception:")
       then wEnvUploadEmpty.uploadResult else "") ∧
    (wEnvUploadEmpty.uploadResult = "" →
      (parseTrack false wEnvUploadEmpty wStateIdle).2 =
        [.thumbnailOpen,
         .logLine ("Found cover art for '" ++ wPropsThumb.title ++ "'. Uploading..."),
         .uploadAttempt wThumb.data,
         .updatePresenceCall
           { title := wPropsThumb.title, artist := wPropsThumb.artist,
             album := wPropsThumb.album, coverArtUrl := "" }]) :=
  upload_result_acceptance false wEnvUploadEmpty wStateIdle wPropsThumb wThumb
    (by decide) (by decide) (by decide) (by decide) (by decide) (by decide)
    (by decide) (by decide) (by decide) (by decide) (by decide) (by decide)

/-- C9: for every byte input (including the empty sequence), if the scratch
file did not already exist before the call, it does not exist when
`UploadCoverArtAsync` returns — on every path: successful upload,
pipe-creation failure, handle-setup failure, spawn failure, and file-open
failure alike. -/
theorem upload_scratch_file_deleted (env : UploadEnv) (binaryData : List Nat)
    (fs : List String)
    (hfs : tempFilePath env ∉ fs) :
    tempFilePath env ∉ (UploadCoverArtAsync env binaryData fs).2 := by
  by_cases h1 : env.tempPathOk <;> by_cases h2 : env.fileOpenOk <;>
    by_cases h3 : env.pipeOk <;> by_cases h4 : env.handleInfoOk <;>
    simp [UploadCoverArtAsync, h1, h2, h3, h4, List.mem_filter, hfs]

/-- Witness for C9: the empty byte sequence on an empty file system; the
scratch file is gone after a fully successful call. -/
theorem upload_scratch_file_deleted_witness :
    tempFilePath wUploadOk ∉ (UploadCoverArtAsync wUploadOk [] []).2 :=
  upload_scratch_file_deleted wUploadOk [] [] (by simp)
